import Mathlib

/-!
Verification of the tfmodisco workflow orchestrator
(`modisco/tfmodisco_workflow/workflow.py`) against its specification.

The orchestrator is shallowly embedded below.  Numeric arrays are lists of
rationals (Python 3 true division on these inputs is exact rational
arithmetic for the quantities the spec talks about); fallible steps
(`assert`, `ValueError`-raising operations) return `Except String`;
collaborator algorithms (seqlet creation, metaclustering, the
seqlets-to-patterns engine, HDF5 primitives) are parameters or records,
exactly as the spec treats them (opaque contracts).
-/

namespace TfModisco

/-- A per-sequence 2-D numpy array (position axis times channel axis). -/
abbrev Mat : Type := List (List ℚ)

/-! ## Adaptive threshold derivation (workflow.py lines 109-131) -/

/-- Source line 110-111: `total_num = sum([(1+len(x)-self.sliding_window_size)
for x in one_hot])`.  Note the summands are NOT clamped at zero: a sequence
shorter than `sliding_window_size - 1` contributes a negative term. -/
def total_num (sliding_window_size : ℕ) (seq_lengths : List ℕ) : ℤ :=
  (seq_lengths.map (fun l => 1 + (l : ℤ) - (sliding_window_size : ℤ))).sum

/-- Message of the source's `assert total_num > self.min_cluster_size` guard
(line 112-113): the string literally says "Increase min_cluster_size". -/
def increaseMsg (min_cluster_size : ℕ) : String :=
  "Increase min_cluster_size " ++ toString min_cluster_size

/-- Source lines 109-119: resolve `laplace_threshold_cdf`.  `none` plays the
sentinel `"auto"`; in that case the guard `total_num > min_cluster_size` is
checked (an `AssertionError` aborts the call otherwise) and the threshold is
`max(min(0.99, 1 - min_cluster_size/total_num), 1 - 500/total_num)`.
An explicitly supplied threshold is passed through with no check at all. -/
def resolveThreshold (laplace_threshold_cdf : Option ℚ)
    (min_cluster_size sliding_window_size : ℕ) (seq_lengths : List ℕ) :
    Except String ℚ :=
  match laplace_threshold_cdf with
  | none =>
      let T : ℤ := total_num sliding_window_size seq_lengths
      if (min_cluster_size : ℤ) < T then
        Except.ok (max (min (99/100) (1 - (min_cluster_size : ℚ) / (T : ℚ)))
                       (1 - 500 / (T : ℚ)))
      else
        Except.error (increaseMsg min_cluster_size)
  | some t => Except.ok t

/-- The auto-threshold formula as the SPEC words it (refinement target for the
comparison with the source): the spec's window count clamps every summand at
zero, `T = sum over sequences of max(0, 1 + length - window)`. -/
def total_num_spec (sliding_window_size : ℕ) (seq_lengths : List ℕ) : ℤ :=
  (seq_lengths.map (fun l => max 0 (1 + (l : ℤ) - (sliding_window_size : ℤ)))).sum

/-- The spec's claimed auto threshold, built on `total_num_spec`. -/
def specAutoThreshold (min_cluster_size sliding_window_size : ℕ)
    (seq_lengths : List ℕ) : ℚ :=
  let T : ℤ := total_num_spec sliding_window_size seq_lengths
  max (min (99/100) (1 - (min_cluster_size : ℚ) / (T : ℚ))) (1 - 500 / (T : ℚ))

/-- Source lines 121-131: the weak threshold defaults to the resolved primary
threshold when `None`, and is clamped down to the primary threshold whenever
it exceeds it (the clamp is only reported by a print, never an error). -/
def resolveWeak (weak_threshold_for_counting_sign : Option ℚ)
    (laplace_threshold_cdf : ℚ) : ℚ :=
  let w : ℚ :=
    match weak_threshold_for_counting_sign with
    | none => laplace_threshold_cdf
    | some w => w
  if laplace_threshold_cdf < w then laplace_threshold_cdf else w

/-! ## Track construction (workflow.py lines 148-171) -/

/-- Numpy `x[::-1, ::-1]`: reverse a 2-D array along both the position axis
(outer list) and the channel axis (inner lists). -/
def revBoth (m : Mat) : Mat := m.reverse.map List.reverse

/-- Modelled from the spec: `core.DataTrack` (collaborator, not under `src/`)
is, per the data model, a named forward/reverse pair of per-sequence arrays
plus a position-axis flag; the class just records its constructor arguments. -/
structure DataTrack where
  name : String
  fwd_tracks : List Mat
  rev_tracks : List Mat
  has_pos_axis : Bool

/-- Source lines 148-171: per task one `"<task>_contrib_scores"` and one
`"<task>_hypothetical_contribs"` track whose reverse arrays are the forward
arrays reversed along both axes, plus the `"sequence"` track from the one-hot
input, assembled in that order (the `TrackSet` collaborator receives this
concatenated list). -/
def buildTracks (task_names : List String)
    (contrib_scores hypothetical_contribs : String → List Mat)
    (one_hot : List Mat) : List DataTrack :=
  (task_names.map (fun key =>
    { name := key ++ "_contrib_scores"
      fwd_tracks := contrib_scores key
      rev_tracks := (contrib_scores key).map revBoth
      has_pos_axis := true }))
  ++ (task_names.map (fun key =>
    { name := key ++ "_hypothetical_contribs"
      fwd_tracks := hypothetical_contribs key
      rev_tracks := (hypothetical_contribs key).map revBoth
      has_pos_axis := true }))
  ++ [{ name := "sequence"
        fwd_tracks := one_hot
        rev_tracks := one_hot.map revBoth
        has_pos_axis := true }]

/-- Source lines 173-174: `np.sum(contrib_scores[x], axis=2)`, the per-position
collapse of each task's contribution scores over the channel axis. -/
def perPositionContribScores (contrib_scores : String → List Mat) :
    String → List (List ℚ) :=
  fun t => (contrib_scores t).map (fun m => m.map List.sum)

/-! ## Attribute-vector matrix (workflow.py lines 192-194) -/

/-- Source lines 192-194: `np.array([[x[key+"_label"] for key in task_names]
for x in seqlets])`.  A seqlet is abstract; `getAttr` embeds its `x[...]`
attribute lookup. -/
def attributeVectors {α : Type} (getAttr : α → String → ℚ)
    (task_names : List String) (seqlets : List α) : List (List ℚ) :=
  seqlets.map (fun x => task_names.map (fun key => getAttr x (key ++ "_label")))

/-! ## Metaclustering results and the per-metacluster loop
(workflow.py lines 196-250) -/

/-- Result contract of the metaclusterer collaborator (spec data model): one
metacluster index per seqlet and one activity pattern per metacluster index.
The source keeps each pattern as a comma-separated string and re-parses it
with `int(...)` at line 216-218; the embedding carries the parsed integer
list directly. -/
structure MetaclusteringResults where
  metacluster_indices : List ℕ
  metacluster_idx_to_activity_pattern : ℕ → List Int

/-- Source line 201: `num_metaclusters = max(metacluster_indices)+1`; Python
`max` of an empty sequence raises `ValueError`. -/
def numMetaclusters (metacluster_indices : List ℕ) : Except String ℕ :=
  match metacluster_indices with
  | [] => Except.error "ValueError: max() arg is an empty sequence"
  | i :: is => Except.ok (is.foldl max i + 1)

/-- Source lines 202-203: `metacluster_sizes = [np.sum(metacluster_idx ==
metacluster_indices) for metacluster_idx in range(num_metaclusters)]`. -/
def metaclusterSizes (num_metaclusters : ℕ) (metacluster_indices : List ℕ) :
    List ℕ :=
  (List.range num_metaclusters).map
    (fun idx => (metacluster_indices.filter (fun j => j == idx)).length)

/-- Python `a, b = zip(*pairs)`: unpacking `zip()` of an empty argument list
raises `ValueError: not enough values to unpack (expected 2, got 0)`;
otherwise it yields the two projections of the pairs. -/
def unzipStar {γ δ : Type} (pairs : List (γ × δ)) :
    Except String (List γ × List δ) :=
  match pairs with
  | [] => Except.error "ValueError: not enough values to unpack (expected 2, got 0)"
  | _ => Except.ok (pairs.map Prod.fst, pairs.map Prod.snd)

/-- Per-metacluster record (workflow.py lines 51-58): the constructor stores
its four arguments.  `β` is the opaque result of the seqlets-to-patterns
collaborator. -/
structure SubMetaclusterResults (α β : Type) where
  metacluster_size : ℕ
  activity_pattern : List Int
  seqlets : List α
  seqlets_to_patterns_result : β

/-- One iteration of the metacluster loop (source lines 213-250) at the pair
`p = (metacluster_idx, metacluster_size)`:
parse the activity pattern, check `assert len(seqlets)==len(metacluster_indices)`,
select this metacluster's seqlets, unpack
`relevant_task_names, relevant_task_signs = zip(*[... if x[1] != 0])`
(which raises when the filtered list is empty), run the source's
`if len(relevant_task_names) == 0: continue` skip branch, and otherwise build
the `SubMetaclusterResults` entry, handing the seqlets-to-patterns factory the
relevant tasks' track names and signs as at source lines 234-242.
`Except.ok none` is the skip, `Except.ok (some entry)` a recorded entry. -/
def processOne {α β : Type} (task_names : List String) (pattern : ℕ → List Int)
    (seqlets : List α) (metacluster_indices : List ℕ)
    (stp : List String → List String → List Int → List α → β)
    (p : ℕ × ℕ) : Except String (Option (ℕ × SubMetaclusterResults α β)) :=
  let metacluster_activities := pattern p.1
  if seqlets.length = metacluster_indices.length then
    let metacluster_seqlets :=
      ((seqlets.zip metacluster_indices).filter (fun q => q.2 == p.1)).map Prod.fst
    match unzipStar ((task_names.zip metacluster_activities).filter
        (fun q => q.2 != 0)) with
    | Except.error e => Except.error e
    | Except.ok (relevant_task_names, relevant_task_signs) =>
        if relevant_task_names.length = 0 then
          Except.ok none
        else
          Except.ok (some (p.1,
            { metacluster_size := p.2
              activity_pattern := metacluster_activities
              seqlets := metacluster_seqlets
              seqlets_to_patterns_result :=
                stp (relevant_task_names.map (fun key => key ++ "_contrib_scores"))
                    (relevant_task_names.map (fun key => key ++ "_hypothetical_contribs"))
                    relevant_task_signs metacluster_seqlets }))
  else Except.error "AssertionError: len(seqlets)==len(metacluster_indices)"

/-- Stable insertion by the second component, placing the inserted element
before every element whose key is not strictly smaller. -/
def insertBySize (p : ℕ × ℕ) : List (ℕ × ℕ) → List (ℕ × ℕ)
  | [] => [p]
  | q :: rest => if q.2 < p.2 then q :: insertBySize p rest else p :: q :: rest

/-- Python `sorted(enumerate(metacluster_sizes), key=lambda x: x[1])` (source
line 211-212): a stable ascending sort by size.  Insertion sort built with
`insertBySize` is stable (equal keys keep their original relative order), so
it produces the same list as CPython's stable sort. -/
def sortBySize (l : List (ℕ × ℕ)) : List (ℕ × ℕ) := l.foldr insertBySize []

/-- The metacluster loop proper: entries are accumulated in iteration order
(the source inserts into an `OrderedDict`); an exception in any iteration
aborts the whole call with no result. -/
def runLoop {α β : Type}
    (step : ℕ × ℕ → Except String (Option (ℕ × SubMetaclusterResults α β))) :
    List (ℕ × ℕ) → Except String (List (ℕ × SubMetaclusterResults α β))
  | [] => Except.ok []
  | p :: rest =>
    match step p with
    | Except.error e => Except.error e
    | Except.ok none => runLoop step rest
    | Except.ok (some r) => (runLoop step rest).map (fun l => r :: l)

/-- Source lines 201-250: sizes from the index counts, iteration in ascending
size order, one `SubMetaclusterResults` entry per processed metacluster. -/
def metaclusterLoop {α β : Type} (task_names : List String)
    (pattern : ℕ → List Int) (seqlets : List α)
    (metacluster_indices : List ℕ)
    (stp : List String → List String → List Int → List α → β) :
    Except String (List (ℕ × SubMetaclusterResults α β)) := do
  let num ← numMetaclusters metacluster_indices
  runLoop (processOne task_names pattern seqlets metacluster_indices stp)
    (sortBySize (metaclusterSizes num metacluster_indices).enum)

/-! ## The workflow call (workflow.py lines 106-259) -/

/-- Constructor configuration of `TfModiscoWorkflow` (lines 71-92) restricted
to the fields its `__call__` reads.  `laplace_threshold_cdf = none` encodes
the `"auto"` sentinel, `weak_threshold_for_counting_sign = none` encodes
`None`. -/
structure Config where
  sliding_window_size : ℕ
  flank_size : ℕ
  min_cluster_size : ℕ
  laplace_threshold_cdf : Option ℚ
  weak_threshold_for_counting_sign : Option ℚ

/-- The constructor defaults: window 21, flank 10, `min_cluster_size` 100,
`laplace_threshold_cdf="auto"`, `weak_threshold_for_counting_sign=0.99`. -/
def defaultConfig : Config := ⟨21, 10, 100, none, some (99/100)⟩

/-- Top-level result record (workflow.py lines 16-33).  The source stores the
whole seqlet-creation collaborator result; the embedding keeps its
`final_seqlets` list, the piece the orchestrator and the claims consume. -/
structure TfModiscoResults (α β : Type) where
  task_names : List String
  final_seqlets : List α
  seqlet_attribute_vectors : List (List ℚ)
  metaclustering_results : MetaclusteringResults
  metacluster_idx_to_submetacluster_results :
    List (ℕ × SubMetaclusterResults α β)

/-- `TfModiscoWorkflow.__call__` (lines 106-259).  Collaborators appear as
function parameters: `seqletCreate` is the composed multi-task seqlet
creation (it receives the track set, the per-position collapsed scores and
the resolved primary threshold with which the coordinate producer is built),
`metaclusterer` is `SignBasedPatternClustering` (receiving
`min_cluster_size`, the primary threshold and the effective weak threshold),
`stp` the seqlets-to-patterns factory, and `getAttr` the seqlet attribute
lookup `x[key]`. -/
def TfModiscoWorkflow.call {α β : Type} (cfg : Config)
    (getAttr : α → String → ℚ)
    (seqletCreate : List DataTrack → (String → List (List ℚ)) → ℚ → List α)
    (metaclusterer : ℕ → ℚ → ℚ → List (List ℚ) → MetaclusteringResults)
    (stp : List String → List String → List Int → List α → β)
    (task_names : List String)
    (contrib_scores hypothetical_contribs : String → List Mat)
    (one_hot : List Mat) :
    Except String (TfModiscoResults α β) := do
  let laplace_threshold_cdf ← resolveThreshold cfg.laplace_threshold_cdf
      cfg.min_cluster_size cfg.sliding_window_size (one_hot.map List.length)
  let weak_threshold_for_counting_sign :=
      resolveWeak cfg.weak_threshold_for_counting_sign laplace_threshold_cdf
  let track_set := buildTracks task_names contrib_scores hypothetical_contribs
      one_hot
  let seqlets := seqletCreate track_set
      (perPositionContribScores contrib_scores) laplace_threshold_cdf
  let attribute_vectors := attributeVectors getAttr task_names seqlets
  let mres := metaclusterer cfg.min_cluster_size laplace_threshold_cdf
      weak_threshold_for_counting_sign attribute_vectors
  let entries ← metaclusterLoop task_names
      mres.metacluster_idx_to_activity_pattern seqlets
      mres.metacluster_indices stp
  return { task_names := task_names
           final_seqlets := seqlets
           seqlet_attribute_vectors := attribute_vectors
           metaclustering_results := mres
           metacluster_idx_to_submetacluster_results := entries }

/-! ## Heap model of the track-building stage (for the frame claim)

The numpy arrays handed to `__call__` live in a store; the track-building
stage (lines 148-171) only reads the supplied arrays and creates new ones
(`x[::-1, ::-1]` and the track records), it contains no element assignment
or in-place operation.  The store makes that observable: every primitive
either reads a cell or appends a fresh one, so the pre-existing cells are
untouched. -/

/-- A store of allocated 2-D arrays; a reference is an index into it. -/
abbrev Store : Type := List Mat

/-- Dereference an array (the workflow only reads references it was given). -/
def readMat (st : Store) (r : ℕ) : Mat := st.getD r []

/-- Allocate a fresh array at the end of the store. -/
def alloc (st : Store) (m : Mat) : Store × ℕ := (st ++ [m], st.length)

/-- Heap version of `[x[::-1, ::-1] for x in arrs]` (lines 152-153, 159-160,
166): read each referenced array and allocate its both-axes reversal. -/
def allocRevTracks (st : Store) : List ℕ → Store × List ℕ
  | [] => (st, [])
  | r :: rs =>
      let a := alloc st (revBoth (readMat st r))
      let b := allocRevTracks a.1 rs
      (b.1, a.2 :: b.2)

/-- A track whose arrays are store references. -/
structure DataTrackRef where
  name : String
  fwd_tracks : List ℕ
  rev_tracks : List ℕ
  has_pos_axis : Bool

/-- Heap version of one family of per-task tracks (the two comprehensions at
lines 148-162): for each task name allocate the reversed arrays and record
the track. -/
def buildTrackFamily (suffix : String) (arrs : String → List ℕ) :
    Store → List String → Store × List DataTrackRef
  | st, [] => (st, [])
  | st, key :: keys =>
      let a := allocRevTracks st (arrs key)
      let b := buildTrackFamily suffix arrs a.1 keys
      (b.1, ⟨key ++ suffix, arrs key, a.2, true⟩ :: b.2)

/-- Heap version of the whole track-building stage (lines 148-171). -/
def buildTracksStore (st : Store) (task_names : List String)
    (contrib_scores hypothetical_contribs : String → List ℕ)
    (one_hot : List ℕ) : Store × List DataTrackRef :=
  let a := buildTrackFamily "_contrib_scores" contrib_scores st task_names
  let b := buildTrackFamily "_hypothetical_contribs" hypothetical_contribs
      a.1 task_names
  let c := allocRevTracks b.1 one_hot
  (c.1, a.2 ++ b.2 ++ [⟨"sequence", one_hot, c.2, true⟩])

/-! ## Persistence shape (workflow.py lines 35-48 and 60-66)

Modelled from the spec: the h5py substrate (groups, datasets, scalar
attributes) is not under `src/`; following the persistence-shape section of
the spec, a saved object is a tree of named children with scalar attributes,
numeric-array leaves and string-list leaves.  Opaque collaborator
sub-structures (`multitask_seqlet_creation_results`,
`metaclustering_results`, `seqlets_to_patterns_result`, the seqlet
coordinate list written by `util.save_seqlet_coords`) are whatever object
their own save produced, passed in as parameters. -/

inductive H5Obj : Type where
  | group (attrs : List (String × ℕ)) (children : List (String × H5Obj)) : H5Obj
  | numArr (data : List Int) : H5Obj
  | strList (data : List String) : H5Obj

/-- Look a child up by name in a group's child list. -/
def findChild (name : String) : List (String × H5Obj) → Option H5Obj
  | [] => none
  | (n, o) :: rest => if n = name then some o else findChild name rest

/-- Look a scalar attribute up by name. -/
def attrLookup (name : String) : List (String × ℕ) → Option ℕ
  | [] => none
  | (n, v) :: rest => if n = name then some v else attrLookup name rest

/-- `SubMetaclusterResults.save_hdf5` (source lines 60-66): the size as the
`size` attribute, the activity pattern as a dataset, the seqlet coordinates
via `util.save_seqlet_coords` (collaborator `coordSave`), and the pattern
result's own saved form (`β` instantiated with `H5Obj`). -/
def SubMetaclusterResults.save_hdf5 {α : Type} (coordSave : List α → H5Obj)
    (r : SubMetaclusterResults α H5Obj) : H5Obj :=
  H5Obj.group [("size", r.metacluster_size)]
    [("activity_pattern", H5Obj.numArr r.activity_pattern),
     ("seqlets", coordSave r.seqlets),
     ("seqlets_to_patterns_result", r.seqlets_to_patterns_result)]

/-- `TfModiscoResults.save_hdf5` (source lines 35-48): the task-name list,
the two opaque collaborator groups, and under
`metacluster_idx_to_submetacluster_results` one group named
`"metacluster" + str(idx)` per entry present in the ordered mapping. -/
def TfModiscoResults.save_hdf5 {α : Type} (coordSave : List α → H5Obj)
    (mtObj metaObj : H5Obj) (res : TfModiscoResults α H5Obj) : H5Obj :=
  H5Obj.group []
    [("task_names", H5Obj.strList res.task_names),
     ("multitask_seqlet_creation_results", mtObj),
     ("metaclustering_results", metaObj),
     ("metacluster_idx_to_submetacluster_results",
       H5Obj.group []
         (res.metacluster_idx_to_submetacluster_results.map
           (fun e => ("metacluster" ++ toString e.1,
                      SubMetaclusterResults.save_hdf5 coordSave e.2))))]

/-- Modelled from the spec: reading one persisted submetacluster's structural
shape (its group name, `size` attribute and `activity_pattern` dataset);
`src/` contains no loader, so this follows the spec's persistence-shape
section. -/
def loadSubShape : String × H5Obj → Option (String × ℕ × List Int)
  | (nm, H5Obj.group attrs children) =>
      match attrLookup "size" attrs, findChild "activity_pattern" children with
      | some sz, some (H5Obj.numArr ap) => some (nm, sz, ap)
      | _, _ => none
  | _ => none

/-- Modelled from the spec: reload the persisted structural shape — the task
names plus, per `metacluster<idx>` group, its name, `size` and
`activity_pattern`. -/
def loadShape (h : H5Obj) : Option (List String × List (String × ℕ × List Int)) :=
  match h with
  | H5Obj.group _ children =>
      match findChild "task_names" children,
            findChild "metacluster_idx_to_submetacluster_results" children with
      | some (H5Obj.strList tn), some (H5Obj.group _ sub) =>
          match sub.mapM loadSubShape with
          | some entries => some (tn, entries)
          | none => none
      | _, _ => none
  | _ => none

/-! ## Supporting lemmas -/

theorem mem_insertBySize {p q : ℕ × ℕ} : ∀ {l : List (ℕ × ℕ)},
    q ∈ insertBySize p l ↔ q = p ∨ q ∈ l := by
  intro l
  induction l with
  | nil => simp [insertBySize]
  | cons a rest ih =>
    by_cases h : a.2 < p.2
    · rw [insertBySize, if_pos h]
      simp only [List.mem_cons, ih]
      tauto
    · rw [insertBySize, if_neg h]
      simp only [List.mem_cons]

theorem pairwise_insertBySize {p : ℕ × ℕ} : ∀ {l : List (ℕ × ℕ)},
    l.Pairwise (fun a b => a.2 ≤ b.2) →
    (insertBySize p l).Pairwise (fun a b => a.2 ≤ b.2) := by
  intro l
  induction l with
  | nil => intro _; simp [insertBySize]
  | cons a rest ih =>
    intro h
    rw [List.pairwise_cons] at h
    by_cases hc : a.2 < p.2
    · rw [insertBySize, if_pos hc, List.pairwise_cons]
      refine ⟨fun b hb => ?_, ih h.2⟩
      rcases mem_insertBySize.mp hb with rfl | hb'
      · exact le_of_lt hc
      · exact h.1 b hb'
    · rw [insertBySize, if_neg hc, List.pairwise_cons]
      refine ⟨fun b hb => ?_, List.pairwise_cons.mpr h⟩
      rcases List.mem_cons.mp hb with rfl | hb'
      · exact Nat.le_of_not_lt hc
      · exact le_trans (Nat.le_of_not_lt hc) (h.1 b hb')

theorem sortBySize_pairwise : ∀ (l : List (ℕ × ℕ)),
    (sortBySize l).Pairwise (fun a b => a.2 ≤ b.2) := by
  intro l
  induction l with
  | nil => simp [sortBySize]
  | cons p rest ih => exact pairwise_insertBySize ih

theorem mem_sortBySize {q : ℕ × ℕ} : ∀ {l : List (ℕ × ℕ)},
    q ∈ sortBySize l ↔ q ∈ l := by
  intro l
  induction l with
  | nil => simp [sortBySize]
  | cons p rest ih =>
    show q ∈ insertBySize p (sortBySize rest) ↔ _
    rw [mem_insertBySize, ih]
    simp [List.mem_cons]

theorem processOne_ok_some {α β : Type} {task_names : List String}
    {pattern : ℕ → List Int} {seqlets : List α} {idxs : List ℕ}
    {stp : List String → List String → List Int → List α → β}
    {p : ℕ × ℕ} {r : ℕ × SubMetaclusterResults α β}
    (h : processOne task_names pattern seqlets idxs stp p = Except.ok (some r)) :
    r.1 = p.1 ∧ r.2.metacluster_size = p.2 ∧
    r.2.seqlets = ((seqlets.zip idxs).filter (fun q => q.2 == p.1)).map Prod.fst ∧
    seqlets.length = idxs.length := by
  by_cases hlen : seqlets.length = idxs.length
  · rw [processOne, if_pos hlen] at h
    cases hf : (task_names.zip (pattern p.1)).filter (fun q => q.2 != 0) with
    | nil => rw [hf] at h; simp [unzipStar] at h
    | cons a rest =>
      rw [hf] at h
      simp only [unzipStar] at h
      split at h
      · simp at h
      · rw [Except.ok.injEq, Option.some.injEq] at h
        subst h
        exact ⟨rfl, rfl, rfl, hlen⟩
  · rw [processOne, if_neg hlen] at h
    simp at h



theorem runLoop_mem {α β : Type}
    {step : ℕ × ℕ → Except String (Option (ℕ × SubMetaclusterResults α β))} :
    ∀ {l : List (ℕ × ℕ)} {res}, runLoop step l = Except.ok res →
      ∀ r ∈ res, ∃ p ∈ l, step p = Except.ok (some r) := by
  intro l
  induction l with
  | nil =>
    intro res h r hr
    simp only [runLoop, Except.ok.injEq] at h
    subst h
    cases hr
  | cons p rest ih =>
    intro res h r hr
    rw [runLoop] at h
    cases hs : step p with
    | error e => rw [hs] at h; cases h
    | ok o =>
      rw [hs] at h
      cases o with
      | none =>
        obtain ⟨q, hq, hq2⟩ := ih h r hr
        exact ⟨q, List.mem_cons_of_mem _ hq, hq2⟩
      | some r0 =>
        cases hrest : runLoop step rest with
        | error e => rw [hrest] at h; cases h
        | ok l0 =>
          rw [hrest] at h
          simp only [Except.map, Except.ok.injEq] at h
          subst h
          rcases List.mem_cons.mp hr with rfl | hr'
          · exact ⟨p, List.mem_cons_self p rest, hs⟩
          · obtain ⟨q, hq, hq2⟩ := ih hrest r hr'
            exact ⟨q, List.mem_cons_of_mem _ hq, hq2⟩

theorem runLoop_pairwise {α β : Type}
    {step : ℕ × ℕ → Except String (Option (ℕ × SubMetaclusterResults α β))}
    (hsize : ∀ p r, step p = Except.ok (some r) → r.2.metacluster_size = p.2) :
    ∀ {l : List (ℕ × ℕ)} {res},
      l.Pairwise (fun a b => a.2 ≤ b.2) → runLoop step l = Except.ok res →
      res.Pairwise (fun a b => a.2.metacluster_size ≤ b.2.metacluster_size) := by
  intro l
  induction l with
  | nil =>
    intro res _ h
    simp only [runLoop, Except.ok.injEq] at h
    subst h
    exact List.Pairwise.nil
  | cons p rest ih =>
    intro res hl h
    rw [List.pairwise_cons] at hl
    rw [runLoop] at h
    cases hs : step p with
    | error e => rw [hs] at h; cases h
    | ok o =>
      rw [hs] at h
      cases o with
      | none => exact ih hl.2 h
      | some r0 =>
        cases hrest : runLoop step rest with
        | error e => rw [hrest] at h; cases h
        | ok l0 =>
          rw [hrest] at h
          simp only [Except.map, Except.ok.injEq] at h
          subst h
          rw [List.pairwise_cons]
          refine ⟨fun b hb => ?_, ih hl.2 hrest⟩
          obtain ⟨q, hq, hq2⟩ := runLoop_mem hrest b hb
          rw [hsize p r0 hs, hsize q b hq2]
          exact hl.1 q hq

theorem zip_filter_snd_length {α : Type} (i : ℕ) :
    ∀ (l₁ : List α) (l₂ : List ℕ), l₁.length = l₂.length →
      ((l₁.zip l₂).filter (fun q => q.2 == i)).length =
        (l₂.filter (fun j => j == i)).length := by
  intro l₁
  induction l₁ with
  | nil =>
    intro l₂ h
    cases l₂ with
    | nil => simp
    | cons b bs => simp at h
  | cons a as ih =>
    intro l₂ h
    cases l₂ with
    | nil => simp at h
    | cons b bs =>
      simp only [List.length_cons, Nat.succ.injEq] at h
      simp only [List.zip_cons_cons, List.filter_cons]
      by_cases hb : b == i
      · simp [hb, ih bs h]
      · simp [hb, ih bs h]

theorem metaclusterLoop_ok {α β : Type} {task_names : List String}
    {pattern : ℕ → List Int} {seqlets : List α} {idxs : List ℕ}
    {stp : List String → List String → List Int → List α → β}
    {entries : List (ℕ × SubMetaclusterResults α β)}
    (h : metaclusterLoop task_names pattern seqlets idxs stp = Except.ok entries) :
    ∃ num, numMetaclusters idxs = Except.ok num ∧
      runLoop (processOne task_names pattern seqlets idxs stp)
        (sortBySize (metaclusterSizes num idxs).enum) = Except.ok entries := by
  rw [metaclusterLoop] at h
  cases hn : numMetaclusters idxs with
  | error e => rw [hn] at h; cases h
  | ok num =>
    rw [hn] at h
    exact ⟨num, rfl, h⟩



theorem except_bind_ok {e s t : Type} {x : Except e s} {f : s → Except e t}
    {b : t} (h : x.bind f = Except.ok b) :
    ∃ a, x = Except.ok a ∧ f a = Except.ok b := by
  cases x with
  | error err => exact absurd h (by simp [Except.bind])
  | ok a => exact ⟨a, rfl, h⟩

theorem call_ok_shape {α β : Type} {cfg : Config} {getAttr : α → String → ℚ}
    {sc : List DataTrack → (String → List (List ℚ)) → ℚ → List α}
    {mc : ℕ → ℚ → ℚ → List (List ℚ) → MetaclusteringResults}
    {stp : List String → List String → List Int → List α → β}
    {tn : List String} {cs hc : String → List Mat} {oh : List Mat}
    {res : TfModiscoResults α β}
    (h : TfModiscoWorkflow.call cfg getAttr sc mc stp tn cs hc oh = Except.ok res) :
    ∃ primary,
      resolveThreshold cfg.laplace_threshold_cdf cfg.min_cluster_size
          cfg.sliding_window_size (oh.map List.length) = Except.ok primary ∧
      res.task_names = tn ∧
      res.final_seqlets = sc (buildTracks tn cs hc oh)
          (perPositionContribScores cs) primary ∧
      res.seqlet_attribute_vectors = attributeVectors getAttr tn res.final_seqlets ∧
      res.metaclustering_results = mc cfg.min_cluster_size primary
          (resolveWeak cfg.weak_threshold_for_counting_sign primary)
          res.seqlet_attribute_vectors ∧
      metaclusterLoop tn
          res.metaclustering_results.metacluster_idx_to_activity_pattern
          res.final_seqlets res.metaclustering_results.metacluster_indices stp =
        Except.ok res.metacluster_idx_to_submetacluster_results := by
  rw [TfModiscoWorkflow.call] at h
  obtain ⟨primary, ht, h2⟩ := except_bind_ok h
  obtain ⟨entries, hm, h3⟩ := except_bind_ok h2
  have h4 := Except.ok.inj h3
  subst h4
  exact ⟨primary, ht, rfl, rfl, rfl, rfl, hm⟩

/-! ## Concrete instances used by the sample-run theorems and witnesses -/

/-- A configuration with an explicitly supplied threshold of 1/2. -/
def cfgExplicit : Config := ⟨21, 10, 100, some (1/2), some (99/100)⟩

/-- A seqlet type of plain numbers whose every attribute is the number. -/
def demoAttr : ℕ → String → ℚ := fun s _ => (s : ℚ)

/-- A seqlet-creation collaborator returning two seqlets. -/
def demoSeqletCreate : List DataTrack → (String → List (List ℚ)) → ℚ → List ℕ :=
  fun _ _ _ => [7, 8]

/-- A metaclusterer putting both seqlets into metacluster 0 with the
single-task activity pattern `[1]`. -/
def demoMetaclusterer : ℕ → ℚ → ℚ → List (List ℚ) → MetaclusteringResults :=
  fun _ _ _ _ => ⟨[0, 0], fun _ => [1]⟩

/-- A trivial seqlets-to-patterns collaborator. -/
def demoStp : List String → List String → List Int → List ℕ → Unit :=
  fun _ _ _ _ => ()

/-- The full result of the sample run with the collaborators above. -/
def demoResults : TfModiscoResults ℕ Unit :=
  ⟨["t0"], [7, 8], [[7], [8]], ⟨[0, 0], fun _ => [1]⟩, [(0, ⟨2, [1], [7, 8], ()⟩)]⟩

/-- The sample run completes and returns `demoResults`. -/
theorem demoRun_eq :
    TfModiscoWorkflow.call cfgExplicit demoAttr demoSeqletCreate demoMetaclusterer
      demoStp ["t0"] (fun _ => []) (fun _ => []) [] = Except.ok demoResults := rfl

/-! ## The claims -/

/-- C1: the claim says a metacluster whose activity pattern has zero nonzero
entries is skipped non-fatally and the run proceeds.  The code disagrees: with
one seqlet in metacluster 0 and activity pattern `[0]`, the
`relevant_task_names, relevant_task_signs = zip(*[...])` unpack at source
lines 223-225 receives an empty list and raises `ValueError`, aborting the
whole call before the skip branch at line 229 (which this very error makes
unreachable) could run. -/
theorem allzero_pattern_unpack_raises :
    TfModiscoWorkflow.call (β := Unit) cfgExplicit (fun (_ : Unit) _ => (0 : ℚ))
      (fun _ _ _ => [()]) (fun _ _ _ _ => ⟨[0], fun _ => [0]⟩) (fun _ _ _ _ => ())
      ["task0"] (fun _ => []) (fun _ => []) [] =
    Except.error "ValueError: not enough values to unpack (expected 2, got 0)" := rfl

/-- C2 counterexample: at auto threshold, min_cluster_size 10, window 21 and
sequence lengths [50, 5] the code computes `total_num = 30 - 15 = 15` and the
threshold 1/3, while the claim's clamped count gives T = 30 and its formula
the value 2/3: the claimed equality fails on this input. -/
theorem auto_threshold_spec_formula_false :
    resolveThreshold none 10 21 [50, 5] = Except.ok (1/3) ∧
    specAutoThreshold 10 21 [50, 5] = 2/3 ∧
    resolveThreshold none 10 21 [50, 5] ≠
      Except.ok (specAutoThreshold 10 21 [50, 5]) := by
  have h1 : resolveThreshold none 10 21 [50, 5] = Except.ok (1/3) := by
    norm_num [resolveThreshold, total_num, increaseMsg]
  have h2 : specAutoThreshold 10 21 [50, 5] = 2/3 := by
    norm_num [specAutoThreshold, total_num_spec]
  refine ⟨h1, h2, ?_⟩
  rw [h1, h2]
  intro hcontra
  have := Except.ok.inj hcontra
  norm_num at this

/-- C2 (amended): when the sentinel is auto and the UNCLAMPED window count
`total_num = sum over sequences of (1 + length - window)` exceeds
`min_cluster_size`, the derived threshold equals
`max(min(0.99, 1 - min_cluster_size/total_num), 1 - 500/total_num)`; in
particular 10 sequences of length 50 at window 21 and min_cluster_size 100
give `total_num = 300` and the threshold 2/3 (0.667 to three decimals). -/
theorem auto_threshold_formula (m w : ℕ) (ls : List ℕ)
    (h : (m : ℤ) < total_num w ls) :
    resolveThreshold none m w ls =
      Except.ok (max (min (99/100) (1 - (m : ℚ) / ((total_num w ls : ℤ) : ℚ)))
                     (1 - 500 / ((total_num w ls : ℤ) : ℚ))) ∧
    resolveThreshold none 100 21 (List.replicate 10 50) = Except.ok (2/3) := by
  constructor
  · rw [resolveThreshold, if_pos h]
  · norm_num [resolveThreshold, total_num, List.replicate, increaseMsg]

/-- Witness for the amended C2 at min_cluster_size 10, window 21 and sequence
lengths [50, 5] (where total_num is 15 > 10). -/
theorem auto_threshold_formula_witness :
    (resolveThreshold none 10 21 [50, 5] =
      Except.ok (max (min (99/100)
          (1 - (10 : ℚ) / ((total_num 21 [50, 5] : ℤ) : ℚ)))
          (1 - 500 / ((total_num 21 [50, 5] : ℤ) : ℚ))) ∧
     resolveThreshold none 100 21 (List.replicate 10 50) = Except.ok (2/3)) :=
  auto_threshold_formula 10 21 [50, 5] (by norm_num [total_num])

/-- C3: with the default (auto) configuration and one sequence of length 30 at
window 21 the window count is 10, at most min_cluster_size = 100, and the call
aborts whatever the collaborators and the remaining inputs are — so no track
is built and no later stage runs — but the abort message is literally
"Increase min_cluster_size 100": it tells the caller to RAISE
min_cluster_size, though the assert `total_num > min_cluster_size` can only
be satisfied by lowering it (as the claim and the spec demand). -/
theorem small_input_aborts_with_increase_message :
    (∀ {α β : Type} (getAttr : α → String → ℚ)
       (sc : List DataTrack → (String → List (List ℚ)) → ℚ → List α)
       (mc : ℕ → ℚ → ℚ → List (List ℚ) → MetaclusteringResults)
       (stp : List String → List String → List Int → List α → β)
       (tn : List String) (cs hc : String → List Mat),
       TfModiscoWorkflow.call defaultConfig getAttr sc mc stp tn cs hc
         [List.replicate 30 [(1 : ℚ)]] = Except.error (increaseMsg 100)) ∧
    increaseMsg 100 = "Increase min_cluster_size 100" := by
  refine ⟨?_, rfl⟩
  intro α β getAttr sc mc stp tn cs hc
  rfl

/-- C4: the effective weak threshold equals the primary threshold when the
configured value is None, is clamped down to the primary threshold whenever
the supplied value exceeds it, equals the supplied value otherwise, and is
never greater than the primary threshold. -/
theorem weak_threshold_effective (p : ℚ) :
    resolveWeak none p = p ∧
    (∀ w, p < w → resolveWeak (some w) p = p) ∧
    (∀ w, w ≤ p → resolveWeak (some w) p = w) ∧
    (∀ c, resolveWeak c p ≤ p) := by
  refine ⟨by simp [resolveWeak], ?_, ?_, ?_⟩
  · intro w hw
    rw [resolveWeak]
    exact if_pos hw
  · intro w hw
    rw [resolveWeak]
    exact if_neg (not_lt.mpr hw)
  · intro c
    cases c with
    | none => simp [resolveWeak]
    | some w =>
      rw [resolveWeak]
      by_cases hw : p < w
      · rw [if_pos hw]
      · rw [if_neg hw]
        exact le_of_not_lt hw

/-- Witness for C4 at primary threshold 1/2 with supplied weak thresholds 3/4
(clamped) and 1/4 (kept). -/
theorem weak_threshold_effective_witness :
    resolveWeak none (1/2) = 1/2 ∧ resolveWeak (some (3/4)) (1/2) = 1/2 ∧
    resolveWeak (some (1/4)) (1/2) = 1/4 ∧ resolveWeak (some (3/4)) (1/2) ≤ 1/2 :=
  ⟨(weak_threshold_effective (1/2)).1,
   (weak_threshold_effective (1/2)).2.1 (3/4) (by norm_num),
   (weak_threshold_effective (1/2)).2.2.1 (1/4) (by norm_num),
   (weak_threshold_effective (1/2)).2.2.2 (some (3/4))⟩

/-- C5: on every completed run the submetacluster entries were produced in
non-decreasing order of metacluster size: the iteration order is ascending by
size and any earlier recorded entry has metacluster_size at most any later
one's. -/
theorem submetacluster_entries_size_sorted {α β : Type} (cfg : Config)
    (getAttr : α → String → ℚ)
    (sc : List DataTrack → (String → List (List ℚ)) → ℚ → List α)
    (mc : ℕ → ℚ → ℚ → List (List ℚ) → MetaclusteringResults)
    (stp : List String → List String → List Int → List α → β)
    (tn : List String) (cs hc : String → List Mat) (oh : List Mat)
    (res : TfModiscoResults α β)
    (h : TfModiscoWorkflow.call cfg getAttr sc mc stp tn cs hc oh = Except.ok res) :
    (∀ l : List (ℕ × ℕ), (sortBySize l).Pairwise (fun a b => a.2 ≤ b.2)) ∧
    res.metacluster_idx_to_submetacluster_results.Pairwise
      (fun a b => a.2.metacluster_size ≤ b.2.metacluster_size) := by
  obtain ⟨primary, ht, htn, hseq, hav, hmres, hloop⟩ := call_ok_shape h
  obtain ⟨num, hnum, hrun⟩ := metaclusterLoop_ok hloop
  exact ⟨sortBySize_pairwise,
    runLoop_pairwise (fun p r hr => (processOne_ok_some hr).2.1)
      (sortBySize_pairwise _) hrun⟩

/-- Witness for C5 on the completed sample run. -/
theorem submetacluster_entries_size_sorted_witness :
    (∀ l : List (ℕ × ℕ), (sortBySize l).Pairwise (fun a b => a.2 ≤ b.2)) ∧
    demoResults.metacluster_idx_to_submetacluster_results.Pairwise
      (fun a b => a.2.metacluster_size ≤ b.2.metacluster_size) :=
  submetacluster_entries_size_sorted cfgExplicit demoAttr demoSeqletCreate
    demoMetaclusterer demoStp ["t0"] (fun _ => []) (fun _ => []) [] demoResults
    demoRun_eq

/-- C6: on every completed run the attribute matrix has one row per final
seqlet (same order) and one column per task (same order), entry (i, j) being
seqlet i's `<task_j>_label` attribute value. -/
theorem attribute_matrix_shape {α β : Type} (cfg : Config)
    (getAttr : α → String → ℚ)
    (sc : List DataTrack → (String → List (List ℚ)) → ℚ → List α)
    (mc : ℕ → ℚ → ℚ → List (List ℚ) → MetaclusteringResults)
    (stp : List String → List String → List Int → List α → β)
    (tn : List String) (cs hc : String → List Mat) (oh : List Mat)
    (res : TfModiscoResults α β)
    (h : TfModiscoWorkflow.call cfg getAttr sc mc stp tn cs hc oh = Except.ok res) :
    res.seqlet_attribute_vectors.length = res.final_seqlets.length ∧
    (∀ row ∈ res.seqlet_attribute_vectors, row.length = tn.length) ∧
    (∀ (i j : ℕ) (x : α) (key : String),
      res.final_seqlets[i]? = some x → tn[j]? = some key →
      res.seqlet_attribute_vectors[i]?.bind (fun row => row[j]?) =
        some (getAttr x (key ++ "_label"))) := by
  obtain ⟨primary, ht, htn, hseq, hav, hmres, hloop⟩ := call_ok_shape h
  rw [hav]
  refine ⟨by simp [attributeVectors], ?_, ?_⟩
  · intro row hrow
    simp only [attributeVectors, List.mem_map] at hrow
    obtain ⟨x, hx, hrw⟩ := hrow
    rw [← hrw]
    simp
  · intro i j x key hi hj
    simp only [attributeVectors, List.getElem?_map, hi, Option.map_some',
      Option.some_bind, hj]

/-- Witness for C6 on the completed sample run, at entry (0, 0). -/
theorem attribute_matrix_shape_witness :
    demoResults.seqlet_attribute_vectors.length =
      demoResults.final_seqlets.length ∧
    demoResults.seqlet_attribute_vectors[0]?.bind (fun row => row[0]?) =
      some (demoAttr 7 ("t0" ++ "_label")) :=
  ⟨(attribute_matrix_shape cfgExplicit demoAttr demoSeqletCreate
      demoMetaclusterer demoStp ["t0"] (fun _ => []) (fun _ => []) [] demoResults
      demoRun_eq).1,
   (attribute_matrix_shape cfgExplicit demoAttr demoSeqletCreate
      demoMetaclusterer demoStp ["t0"] (fun _ => []) (fun _ => []) [] demoResults
      demoRun_eq).2.2 0 0 7 "t0" rfl rfl⟩

/-- C10: on every completed run, every recorded submetacluster entry holds
exactly the final seqlets whose metacluster index equals its key, in their
original relative order, and its stored metacluster_size equals the length of
that list. -/
theorem submetacluster_seqlets_exact {α β : Type} (cfg : Config)
    (getAttr : α → String → ℚ)
    (sc : List DataTrack → (String → List (List ℚ)) → ℚ → List α)
    (mc : ℕ → ℚ → ℚ → List (List ℚ) → MetaclusteringResults)
    (stp : List String → List String → List Int → List α → β)
    (tn : List String) (cs hc : String → List Mat) (oh : List Mat)
    (res : TfModiscoResults α β)
    (h : TfModiscoWorkflow.call cfg getAttr sc mc stp tn cs hc oh = Except.ok res) :
    ∀ idx r, (idx, r) ∈ res.metacluster_idx_to_submetacluster_results →
      r.seqlets = ((res.final_seqlets.zip
          res.metaclustering_results.metacluster_indices).filter
          (fun q => q.2 == idx)).map Prod.fst ∧
      r.metacluster_size = r.seqlets.length := by
  obtain ⟨primary, ht, htn, hseq, hav, hmres, hloop⟩ := call_ok_shape h
  obtain ⟨num, hnum, hrun⟩ := metaclusterLoop_ok hloop
  intro idx r hmem
  obtain ⟨p, hp, hstep⟩ := runLoop_mem hrun (idx, r) hmem
  obtain ⟨h1, h2, h3, h4⟩ := processOne_ok_some hstep
  have h1' : idx = p.1 := h1
  have h2' : r.metacluster_size = p.2 := h2
  have h3' : r.seqlets = ((res.final_seqlets.zip
      res.metaclustering_results.metacluster_indices).filter
      (fun q => q.2 == p.1)).map Prod.fst := h3
  refine ⟨by rw [h1']; exact h3', ?_⟩
  have hpmem : p ∈ (metaclusterSizes num
      res.metaclustering_results.metacluster_indices).enum := mem_sortBySize.mp hp
  have hsz := List.mem_enum_iff_getElem?.mp hpmem
  rw [metaclusterSizes, List.getElem?_map] at hsz
  cases hrange : (List.range num)[p.1]? with
  | none => rw [hrange] at hsz; exact absurd hsz (by simp)
  | some v =>
    rw [hrange, Option.map_some'] at hsz
    have hfv := Option.some.inj hsz
    obtain ⟨hvlt, hveq⟩ := List.getElem?_eq_some.mp hrange
    have hv : v = p.1 := by rw [← hveq]; exact List.getElem_range p.1 hvlt
    have hcount := zip_filter_snd_length p.1 res.final_seqlets
      res.metaclustering_results.metacluster_indices h4
    rw [h2', h3', List.length_map, hcount, ← hfv, hv]

/-- Witness for C10 on the completed sample run, at its single entry. -/
theorem submetacluster_seqlets_exact_witness :
    (⟨2, [1], [7, 8], ()⟩ : SubMetaclusterResults ℕ Unit).seqlets =
      ((demoResults.final_seqlets.zip
        demoResults.metaclustering_results.metacluster_indices).filter
        (fun q => q.2 == 0)).map Prod.fst ∧
    (⟨2, [1], [7, 8], ()⟩ : SubMetaclusterResults ℕ Unit).metacluster_size =
      (⟨2, [1], [7, 8], ()⟩ : SubMetaclusterResults ℕ Unit).seqlets.length :=
  submetacluster_seqlets_exact cfgExplicit demoAttr demoSeqletCreate
    demoMetaclusterer demoStp ["t0"] (fun _ => []) (fun _ => []) [] demoResults
    demoRun_eq 0 ⟨2, [1], [7, 8], ()⟩ (List.mem_singleton_self _)

/-- C7: track construction yields exactly the two named tracks per task plus
the "sequence" track, in the source's order; every track's reverse list is
its forward list mapped through the both-axes reversal (so the lists have
equal length); and the reversal really flips the position axis: entry i of
the reversal is entry (length - 1 - i) of the original with its channel axis
reversed. -/
theorem track_construction_shape (tn : List String)
    (cs hc : String → List Mat) (oh : List Mat) :
    (buildTracks tn cs hc oh).map DataTrack.name =
      (tn.map (fun key => key ++ "_contrib_scores") ++
       tn.map (fun key => key ++ "_hypothetical_contribs")) ++ ["sequence"] ∧
    (∀ t ∈ buildTracks tn cs hc oh,
      t.rev_tracks = t.fwd_tracks.map revBoth ∧
      t.rev_tracks.length = t.fwd_tracks.length) ∧
    (∀ (m : Mat) (i : ℕ), i < m.length →
      (revBoth m)[i]? = (m[m.length - 1 - i]?).map List.reverse) := by
  refine ⟨?_, ?_, ?_⟩
  · simp [buildTracks, Function.comp_def]
  · intro t ht
    simp only [buildTracks, List.mem_append, List.mem_map,
      List.mem_singleton] at ht
    rcases ht with (⟨key, hk, hkey⟩ | ⟨key, hk, hkey⟩) | hkey <;>
      subst hkey <;> exact ⟨rfl, by simp⟩
  · intro m i hi
    rw [revBoth, List.getElem?_map, List.getElem?_reverse hi]

/-- Witness for C7 on one task named "a" and a two-row array. -/
theorem track_construction_shape_witness :
    (buildTracks ["a"] (fun _ => [[[1], [2]]]) (fun _ => []) []).map
        DataTrack.name =
      ((["a"].map (fun key => key ++ "_contrib_scores") ++
        ["a"].map (fun key => key ++ "_hypothetical_contribs")) ++
       ["sequence"]) ∧
    (revBoth [[(1 : ℚ)], [2]])[0]? = some [2] :=
  ⟨(track_construction_shape ["a"] (fun _ => [[[1], [2]]]) (fun _ => []) []).1,
   (track_construction_shape ["a"] (fun _ => [[[1], [2]]]) (fun _ => []) []).2.2
     [[1], [2]] 0 (by decide)⟩

/-- Saving then shape-loading one submetacluster group recovers its size and
activity pattern (helper for C8). -/
theorem loadSubShape_save {α : Type} (coordSave : List α → H5Obj)
    (l : List (ℕ × SubMetaclusterResults α H5Obj)) :
    (l.map (fun e => ("metacluster" ++ toString e.1,
        SubMetaclusterResults.save_hdf5 coordSave e.2))).mapM loadSubShape =
    some (l.map (fun e => ("metacluster" ++ toString e.1,
        e.2.metacluster_size, e.2.activity_pattern))) := by
  induction l with
  | nil => rfl
  | cons e rest ih =>
    simp only [List.map_cons, List.mapM_cons, ih]
    rfl

/-- C8: persistence writes one group named `"metacluster" + idx` per entry
present in the ordered mapping, holding that entry's size attribute and
activity-pattern dataset, and reloading the persisted structural shape
recovers the task names and, per metacluster key, the same size and activity
pattern. -/
theorem results_persistence_roundtrip {α : Type} (coordSave : List α → H5Obj)
    (mtObj metaObj : H5Obj) (res : TfModiscoResults α H5Obj) :
    loadShape (TfModiscoResults.save_hdf5 coordSave mtObj metaObj res) =
      some (res.task_names,
        res.metacluster_idx_to_submetacluster_results.map
          (fun e => ("metacluster" ++ toString e.1,
                     e.2.metacluster_size, e.2.activity_pattern))) := by
  have h := loadSubShape_save coordSave
    res.metacluster_idx_to_submetacluster_results
  show (match (res.metacluster_idx_to_submetacluster_results.map
      (fun e => ("metacluster" ++ toString e.1,
        SubMetaclusterResults.save_hdf5 coordSave e.2))).mapM loadSubShape with
    | some entries => some (res.task_names, entries)
    | none => none) = _
  rw [h]

/-- The heap of the track-building stage only grows: allocations append,
nothing overwrites (helper for C9). -/
theorem allocRevTracks_extends (rs : List ℕ) : ∀ (st : Store),
    ∃ ext, (allocRevTracks st rs).1 = st ++ ext := by
  induction rs with
  | nil => intro st; exact ⟨[], by simp [allocRevTracks]⟩
  | cons r rest ih =>
    intro st
    obtain ⟨ext, hext⟩ := ih (st ++ [revBoth (readMat st r)])
    refine ⟨[revBoth (readMat st r)] ++ ext, ?_⟩
    show (allocRevTracks (st ++ [revBoth (readMat st r)]) rest).1 =
      st ++ ([revBoth (readMat st r)] ++ ext)
    rw [hext, List.append_assoc]

/-- Per-task track families only extend the heap (helper for C9). -/
theorem buildTrackFamily_extends (suffix : String) (arrs : String → List ℕ) :
    ∀ (keys : List String) (st : Store),
    ∃ ext, (buildTrackFamily suffix arrs st keys).1 = st ++ ext := by
  intro keys
  induction keys with
  | nil => intro st; exact ⟨[], by simp [buildTrackFamily]⟩
  | cons key rest ih =>
    intro st
    obtain ⟨e1, he1⟩ := allocRevTracks_extends (arrs key) st
    obtain ⟨e2, he2⟩ := ih (allocRevTracks st (arrs key)).1
    refine ⟨e1 ++ e2, ?_⟩
    show (buildTrackFamily suffix arrs (allocRevTracks st (arrs key)).1 rest).1 = _
    rw [he2, he1, List.append_assoc]

/-- The whole track-building stage only extends the heap (helper for C9). -/
theorem buildTracksStore_extends (st : Store) (tn : List String)
    (cs hc : String → List ℕ) (oh : List ℕ) :
    ∃ ext, (buildTracksStore st tn cs hc oh).1 = st ++ ext := by
  obtain ⟨e1, he1⟩ := buildTrackFamily_extends "_contrib_scores" cs tn st
  obtain ⟨e2, he2⟩ := buildTrackFamily_extends "_hypothetical_contribs" hc tn
    (buildTrackFamily "_contrib_scores" cs st tn).1
  obtain ⟨e3, he3⟩ := allocRevTracks_extends oh
    (buildTrackFamily "_hypothetical_contribs" hc
      (buildTrackFamily "_contrib_scores" cs st tn).1 tn).1
  refine ⟨e1 ++ (e2 ++ e3), ?_⟩
  show (allocRevTracks (buildTrackFamily "_hypothetical_contribs" hc
      (buildTrackFamily "_contrib_scores" cs st tn).1 tn).1 oh).1 = _
  rw [he3, he2, he1, List.append_assoc, List.append_assoc]

/-- C9: the track-building stage mutates no caller-supplied array — the final
heap extends the initial one unchanged, so every pre-existing array reads
back exactly its pre-call value. -/
theorem track_building_no_mutation (st : Store) (tn : List String)
    (cs hc : String → List ℕ) (oh : List ℕ) :
    (buildTracksStore st tn cs hc oh).1.take st.length = st ∧
    ∀ r, r < st.length →
      readMat (buildTracksStore st tn cs hc oh).1 r = readMat st r := by
  obtain ⟨ext, hext⟩ := buildTracksStore_extends st tn cs hc oh
  rw [hext]
  constructor
  · exact List.take_left st ext
  · intro r hr
    rw [readMat, readMat, List.getD_eq_getElem?_getD, List.getD_eq_getElem?_getD,
      List.getElem?_append, if_pos hr]

/-- Witness for C9 on a one-cell heap holding the array [[1]]. -/
theorem track_building_no_mutation_witness :
    (buildTracksStore [[[1]]] ["a"] (fun _ => [0]) (fun _ => [0]) [0]).1.take
      ([[[(1 : ℚ)]]] : Store).length = [[[1]]] ∧
    readMat (buildTracksStore [[[1]]] ["a"] (fun _ => [0]) (fun _ => [0]) [0]).1 0 =
      readMat [[[1]]] 0 :=
  ⟨(track_building_no_mutation [[[1]]] ["a"] (fun _ => [0]) (fun _ => [0]) [0]).1,
   (track_building_no_mutation [[[1]]] ["a"] (fun _ => [0]) (fun _ => [0]) [0]).2
     0 (by decide)⟩

end TfModisco
